import Mathlib

/-!
Verification of the battery-estimation and staleness-classification logic of
the handheld-deals repository.

The estimator is embedded from `scripts/estimate-battery.js`; the stale-data
downgrade pass from `scripts/downgrade-stale-data.js`; the record shapes from
`frontend/src/lib/directus.ts`.  JavaScript numbers are modelled as exact
rationals (every constant in the source is a decimal with one fractional
digit), date values as integer timestamps, and JavaScript objects with
optional fields as structures of `Option` fields.
-/

/-! ## String utilities

The source compares genre tags with `String.prototype.includes` after
`toLowerCase`.  We model both directly on the character lists. -/

/-- Character-list version of testing that the first list starts the second. -/
def charsStartWith : List Char → List Char → Bool
  | [], _ => true
  | _ :: _, [] => false
  | a :: as, b :: bs => a == b && charsStartWith as bs

/-- Character-list substring test: does `needle` occur inside the list? -/
def charsContain (needle : List Char) : List Char → Bool
  | [] => needle.isEmpty
  | h :: t => charsStartWith needle (h :: t) || charsContain needle t

/-- Model of JavaScript `hay.includes(needle)`. -/
def strIncludes (hay needle : String) : Bool := charsContain needle.data hay.data

/-- Model of JavaScript `String.prototype.toLowerCase` (ASCII, as used on the
genre tags in the source). -/
def lowerStr (s : String) : String := ⟨s.data.map Char.toLower⟩

/-! ## Data model (from `frontend/src/lib/directus.ts`) -/

/-- The three supported handheld devices. -/
inductive Device
  | steam_deck
  | rog_ally
  | legion_go
deriving DecidableEq

/-- Iteration order used by the scripts: steam_deck, rog_ally, legion_go. -/
def DEVICES : List Device := [Device.steam_deck, Device.rog_ally, Device.legion_go]

/-- Per-device performance sub-record (interface `DevicePerformance` members).
Dates are modelled as integer timestamps. -/
structure DeviceRecord where
  status : String
  fps_avg : Option ℚ
  battery_hours : Option ℚ
  tested_settings : Option String
  tested_date : Option Int
  notes : Option String
  estimated : Bool
deriving DecidableEq

/-- The `device_performance` JSON object: one optional sub-record per device. -/
structure DevicePerformance where
  steam_deck : Option DeviceRecord
  rog_ally : Option DeviceRecord
  legion_go : Option DeviceRecord
deriving DecidableEq

/-- JavaScript `dp[device]` lookup. -/
def DevicePerformance.get (dp : DevicePerformance) : Device → Option DeviceRecord
  | Device.steam_deck => dp.steam_deck
  | Device.rog_ally => dp.rog_ally
  | Device.legion_go => dp.legion_go

/-- Game record (interface `Game`), restricted to the fields the estimation
and staleness scripts fetch: `id, title, genre, release_year, deck_status,
protondb_tier, device_performance, data_reliability`. -/
structure Game where
  id : Nat
  title : String
  genre : Option (List String)
  release_year : Option Int
  deck_status : Option String
  protondb_tier : Option String
  device_performance : Option DevicePerformance
  data_reliability : Option String
deriving DecidableEq

/-! ## Estimator configuration (from `scripts/estimate-battery.js`) -/

/-- Device-specific base battery hours (`DEVICE_BASE_HOURS`). -/
def DEVICE_BASE_HOURS : Device → ℚ
  | Device.steam_deck => 4.0
  | Device.rog_ally => 3.5
  | Device.legion_go => 3.8

/-- A clamp range with a lower and an upper bound. -/
structure ClampRange where
  min : ℚ
  max : ℚ

/-- Device-specific clamp ranges (`DEVICE_CLAMPS`). -/
def DEVICE_CLAMPS : Device → ClampRange
  | Device.steam_deck => ⟨1.5, 8.0⟩
  | Device.rog_ally => ⟨1.5, 6.0⟩
  | Device.legion_go => ⟨1.5, 7.0⟩

/-- Genre modifiers (`GENRE_MODIFIERS`), in object-literal insertion order,
which is the order `Object.entries` iterates them in. -/
def GENRE_MODIFIERS : List (String × ℚ) :=
  [("indie", 2.0), ("2d", 2.0), ("puzzle", 1.5), ("turn-based", 1.0),
   ("roguelike", 1.0), ("strategy", 0.8),
   ("aaa", -1.5), ("action", -1.0), ("fps", -1.0), ("racing", -0.8),
   ("rpg", -0.5), ("simulation", -0.3)]

/-- ROG Ally extra genre penalties (`DEVICE_SPECIFIC_MODIFIERS.rog_ally`). -/
def ROG_ALLY_MODIFIERS : List (String × ℚ) := [("action", -0.5), ("fps", -0.5)]

/-- Legion Go flat bonus (`DEVICE_SPECIFIC_MODIFIERS.legion_go.all`). -/
def LEGION_GO_ALL : ℚ := 0.3

/-- Release-year modifiers (`RELEASE_YEAR_MODIFIER`). -/
def RELEASE_YEAR_MODIFIER_pre2020 : ℚ := 0.5

/-- Release-year penalty for 2023+ titles (`RELEASE_YEAR_MODIFIER.recent`). -/
def RELEASE_YEAR_MODIFIER_recent : ℚ := -0.5

/-- Optimization bonus for Deck Verified (`OPTIMIZATION_MODIFIERS.deck_verified`). -/
def OPTIMIZATION_deck_verified : ℚ := 0.5

/-- Optimization bonus for ProtonDB Platinum (`OPTIMIZATION_MODIFIERS.protondb_platinum`). -/
def OPTIMIZATION_protondb_platinum : ℚ := 0.3

/-! ## Estimator algorithm (`estimateBatteryForDevice`) -/

/-- Model of JavaScript number-to-string conversion for the values appearing
in the modifier tables (all are integer multiples of one tenth). -/
def decStr (q : ℚ) : String :=
  let n : Int := (q * 10).num
  let sign := if n < 0 then "-" else ""
  let a := n.natAbs
  sign ++ (if a % 10 == 0 then toString (a / 10)
           else toString (a / 10) ++ "." ++ toString (a % 10))

/-- Note pushed for an applied genre modifier. -/
def genreNote (k : String) (m : ℚ) : String :=
  "Genre " ++ k ++ ": " ++ (if 0 < m then "+" else "") ++ decStr m ++ "h"

/-- Note pushed for an applied ROG Ally genre penalty. -/
def rogNote (k : String) (m : ℚ) : String :=
  "ROG Ally " ++ k ++ ": " ++ decStr m ++ "h"

/-- The `for (const [genreKey, modifier] of Object.entries(GENRE_MODIFIERS))`
loop with its `break`: return the first table entry one of whose keys occurs
as a substring of some (lowercased) genre tag. -/
def genreScan (genres : List String) : List (String × ℚ) → Option (String × ℚ)
  | [] => none
  | (k, m) :: rest =>
    if genres.any fun g => strIncludes g k then some (k, m)
    else genreScan genres rest

/-- The ROG Ally device-modifier loop (no `break`: every matching entry
fires), accumulating hours delta and notes. -/
def rogScan (genres : List String) : List (String × ℚ) → ℚ × List String → ℚ × List String
  | [], acc => acc
  | (k, m) :: rest, acc =>
    if genres.any fun g => strIncludes g k then
      rogScan genres rest (acc.1 + m, acc.2 ++ [rogNote k m])
    else rogScan genres rest acc

/-- Step 1 of the estimator: genre modifier (first match wins), together with
its trace notes.  The guard models
`game.genre && Array.isArray(game.genre) && game.genre.length > 0`. -/
def genreStep (game : Game) : ℚ × List String :=
  match game.genre with
  | some gs =>
    if 0 < gs.length then
      match genreScan (gs.map lowerStr) GENRE_MODIFIERS with
      | some (k, m) => (m, [genreNote k m])
      | none => (0, [])
    else (0, ["No genre data - baseline only"])
  | none => (0, ["No genre data - baseline only"])

/-- Step 2 of the estimator: device-specific modifiers
(ROG Ally genre penalties, Legion Go flat battery bonus). -/
def deviceStep (game : Game) (device : Device) : ℚ × List String :=
  let rog :=
    if device = Device.rog_ally then
      match game.genre with
      | some gs =>
        if 0 < gs.length then rogScan (gs.map lowerStr) ROG_ALLY_MODIFIERS (0, [])
        else (0, [])
      | none => (0, [])
    else (0, [])
  if device = Device.legion_go then
    (rog.1 + LEGION_GO_ALL, rog.2 ++ ["Legion Go battery: +0.3h"])
  else rog

/-- Step 3 of the estimator: release-year modifier.  The `y = 0` branch
models the JavaScript truthiness test `if (game.release_year)`, under which
a year equal to 0 skips the whole step. -/
def yearStep (game : Game) : ℚ × List String :=
  match game.release_year with
  | some y =>
    if y = 0 then (0, [])
    else if y < 2020 then (RELEASE_YEAR_MODIFIER_pre2020, ["Pre-2020: +0.5h"])
    else if 2023 ≤ y then (RELEASE_YEAR_MODIFIER_recent, ["2023+ release: -0.5h"])
    else (0, [])
  | none => (0, [])

/-- Step 4 of the estimator: optimization modifiers (Deck Verified on the
Steam Deck only; ProtonDB Platinum on every device). -/
def optStep (game : Game) (device : Device) : ℚ × List String :=
  let a :=
    if device = Device.steam_deck ∧ game.deck_status = some "verified" then
      (OPTIMIZATION_deck_verified, ["Deck Verified: +0.5h"])
    else ((0 : ℚ), ([] : List String))
  let b :=
    if game.protondb_tier = some "platinum" then
      (OPTIMIZATION_protondb_platinum, ["ProtonDB Platinum: +0.3h"])
    else ((0 : ℚ), ([] : List String))
  (a.1 + b.1, a.2 ++ b.2)

/-- Step 6 of the estimator: categorize the clamped hours with
device-specific thresholds. -/
def categorize (device : Device) (hours : ℚ) : String :=
  match device with
  | Device.steam_deck =>
    if 5 ≤ hours then "low" else if 3 ≤ hours then "medium" else "high"
  | Device.rog_ally =>
    if 4 ≤ hours then "low" else if 2.5 ≤ hours then "medium" else "high"
  | Device.legion_go =>
    if 4.5 ≤ hours then "low" else if 3 ≤ hours then "medium" else "high"

/-- Model of `Math.round(hours * 10) / 10` (JavaScript `Math.round` rounds
half away from zero toward positive infinity, i.e. `⌊x + 1/2⌋`). -/
def roundTenths (q : ℚ) : ℚ := ((⌊q * 10 + 1/2⌋ : ℤ) : ℚ) / 10

/-- Model of `Math.max(clamp.min, Math.min(clamp.max, hours))`. -/
def clampTo (c : ClampRange) (q : ℚ) : ℚ := max c.min (min c.max q)

/-- Output record of the estimator. -/
structure Estimate where
  hours : ℚ
  category : String
  estimated : Bool
  notes : String
deriving DecidableEq

/-- The full estimator `estimateBatteryForDevice(game, device)`: base hours,
the four modifier steps, clamp, categorize (on the clamped, unrounded value),
round to one decimal, and assemble the trace string. -/
def estimateBatteryForDevice (game : Game) (device : Device) : Estimate :=
  let s1 := genreStep game
  let s2 := deviceStep game device
  let s3 := yearStep game
  let s4 := optStep game device
  let hours := DEVICE_BASE_HOURS device + s1.1 + s2.1 + s3.1 + s4.1
  let clamped := clampTo (DEVICE_CLAMPS device) hours
  let category := categorize device clamped
  let applied := s1.2 ++ s2.2 ++ s3.2 ++ s4.2
  let joined := String.intercalate ", " applied
  { hours := roundTenths clamped
    category := category
    estimated := true
    notes := "Estimated based on: " ++ (if joined = "" then "baseline only" else joined) }

/-- Batch mode `estimateAllDevices(game)`: a fresh estimated sub-record for
each of the three devices. -/
def estimateAllDevices (game : Game) : DevicePerformance :=
  let mk := fun d =>
    let e := estimateBatteryForDevice game d
    some { status := "untested"
           fps_avg := none
           battery_hours := some e.hours
           tested_settings := none
           tested_date := none
           notes := some e.notes
           estimated := true }
  { steam_deck := mk Device.steam_deck
    rog_ally := mk Device.rog_ally
    legion_go := mk Device.legion_go }

/-- The selection filter of `runBatteryEstimation`: a game needs estimation
when `device_performance` is null, or some device sub-record is missing, or
some device sub-record has a null battery-hours value. -/
def needsEstimation (game : Game) : Bool :=
  match game.device_performance with
  | none => true
  | some dp =>
    DEVICES.any fun d =>
      match dp.get d with
      | none => true
      | some r => r.battery_hours == none

/-! ## Staleness classifier (from `scripts/downgrade-stale-data.js`) -/

/-- Staleness threshold in days (`STALE_THRESHOLD_DAYS`). -/
def STALE_THRESHOLD_DAYS : Int := 180

/-- Model of `isDeviceDataStale(devicePerformance, cutoffDate)`: true exactly
when some device has a present test date strictly earlier than the cutoff. -/
def isDeviceDataStale (dp : Option DevicePerformance) (cutoffDate : Int) : Bool :=
  match dp with
  | none => false
  | some p =>
    DEVICES.any fun d =>
      match p.get d with
      | some r =>
        match r.tested_date with
        | some t => decide (t < cutoffDate)
        | none => false
      | none => false

/-- Outcome of the per-game body of `downgradeStaleData` for one game:
which of the three counters (`downgraded`, `stillFresh`, `noTestData`) the
game falls into, or skipped entirely because the fetch filter
`data_reliability = hand_tested` excludes it. -/
inductive StaleOutcome
  | downgraded
  | stillFresh
  | noTestData
  | skipped
deriving DecidableEq

/-- The per-game step of `downgradeStaleData` with its fetch filter: returns
the (possibly updated) game record together with the reported outcome.  The
only write the script performs is
a single-field update of data_reliability to stale_tested. -/
def downgradePass (game : Game) (cutoffDate : Int) : Game × StaleOutcome :=
  if game.data_reliability = some "hand_tested" then
    match game.device_performance with
    | none => (game, StaleOutcome.noTestData)
    | some dp =>
      if isDeviceDataStale (some dp) cutoffDate then
        ({ game with data_reliability := some "stale_tested" }, StaleOutcome.downgraded)
      else (game, StaleOutcome.stillFresh)
  else (game, StaleOutcome.skipped)

/-! ## Review flagging (spec model)

The script `scripts/flag-stale-reviews.js` is required by
`scripts/cron-scheduler.js` but its source file is not present in the
repository snapshot; the algorithm below is modelled from the specification
of the review-flagging pass. -/

/-- Curator review record: publication status, confidence level, free-text
note, and an optional last-verified timestamp. -/
structure Review where
  status : String
  confidence_level : String
  curator_note : String
  last_verified : Option Int
deriving DecidableEq

/-- Modelled from the spec: the sentinel substring whose presence in the note
field marks a review as already flagged.  The source file
`flag-stale-reviews.js` that fixes the concrete text is missing from the
snapshot; no result below depends on the exact characters. -/
def FLAG_SENTINEL : String := "NEEDS RE-TEST"

/-- Modelled from the spec: the auto-generated note appended when flagging,
documenting the flag and the computed age in months. -/
def flagNoteText (now t : Int) : String :=
  " [" ++ FLAG_SENTINEL ++ ": last verified " ++ toString ((now - t) / 30) ++ " months ago]"

/-- Modelled from the spec: the review-flagging pass of
`flag-stale-reviews.js` (file missing from the snapshot).  Only published
reviews are considered; a review is stale when its last-verified date
predates the cutoff; a review already containing the sentinel is skipped;
otherwise confidence is downgraded one step from high to medium only, and a
timestamped note is appended to the existing note. -/
def flagStaleReview (r : Review) (cutoffDate now : Int) : Review :=
  if r.status = "published" then
    match r.last_verified with
    | some t =>
      if t < cutoffDate then
        if strIncludes r.curator_note FLAG_SENTINEL then r
        else
          { r with
            confidence_level :=
              if r.confidence_level = "high" then "medium" else r.confidence_level
            curator_note := r.curator_note ++ flagNoteText now t }
      else r
    | none => r
  else r

/-! ## Helper lemmas -/

/-- Rounding to tenths is monotone. -/
lemma roundTenths_mono {a b : ℚ} (h : a ≤ b) : roundTenths a ≤ roundTenths b := by
  unfold roundTenths
  have h1 : (⌊a * 10 + 1/2⌋ : ℤ) ≤ ⌊b * 10 + 1/2⌋ := by
    apply Int.floor_le_floor
    linarith
  have h2 : ((⌊a * 10 + 1/2⌋ : ℤ) : ℚ) ≤ ((⌊b * 10 + 1/2⌋ : ℤ) : ℚ) := by exact_mod_cast h1
  linarith

/-- Rounding to tenths fixes exact multiples of one tenth. -/
lemma roundTenths_eq_self (q : ℚ) (n : ℤ) (h : q * 10 = (n : ℚ)) : roundTenths q = q := by
  unfold roundTenths
  rw [h]
  have hfl : (⌊(n : ℚ) + 1/2⌋ : ℤ) = n := by
    rw [Int.floor_eq_iff]
    constructor <;> [linarith; push_cast] <;> linarith
  rw [hfl]
  have h10 : (10 : ℚ) ≠ 0 := by norm_num
  field_simp
  linarith [h]

/-- The clamp result is at least the lower bound. -/
lemma clampTo_ge_min (c : ClampRange) (q : ℚ) : c.min ≤ clampTo c q :=
  le_max_left _ _

/-- The clamp result is at most the upper bound, provided the range is
non-empty. -/
lemma clampTo_le_max (c : ClampRange) (q : ℚ) (h : c.min ≤ c.max) :
    clampTo c q ≤ c.max :=
  max_le h (min_le_left _ _)

/-- Clamping is monotone. -/
lemma clampTo_mono (c : ClampRange) {a b : ℚ} (h : a ≤ b) :
    clampTo c a ≤ clampTo c b :=
  max_le_max le_rfl (min_le_min le_rfl h)

/-- The hours field of the estimator output, unfolded. -/
lemma estimate_hours_def (g : Game) (d : Device) :
    (estimateBatteryForDevice g d).hours =
      roundTenths (clampTo (DEVICE_CLAMPS d)
        (DEVICE_BASE_HOURS d + (genreStep g).1 + (deviceStep g d).1 +
          (yearStep g).1 + (optStep g d).1)) := rfl

/-- The category field of the estimator output, unfolded. -/
lemma estimate_category_def (g : Game) (d : Device) :
    (estimateBatteryForDevice g d).category =
      categorize d (clampTo (DEVICE_CLAMPS d)
        (DEVICE_BASE_HOURS d + (genreStep g).1 + (deviceStep g d).1 +
          (yearStep g).1 + (optStep g d).1)) := rfl

/-- Every device clamp range is non-empty. -/
lemma device_clamp_nonempty (d : Device) :
    (DEVICE_CLAMPS d).min ≤ (DEVICE_CLAMPS d).max := by
  cases d <;> norm_num [DEVICE_CLAMPS]

/-- Both clamp bounds of every device are exact multiples of one tenth, so
rounding fixes them. -/
lemma roundTenths_clamp_min (d : Device) :
    roundTenths (DEVICE_CLAMPS d).min = (DEVICE_CLAMPS d).min := by
  cases d <;>
    [exact roundTenths_eq_self _ 15 (by norm_num [DEVICE_CLAMPS]);
     exact roundTenths_eq_self _ 15 (by norm_num [DEVICE_CLAMPS]);
     exact roundTenths_eq_self _ 15 (by norm_num [DEVICE_CLAMPS])]

/-- Rounding fixes the upper clamp bound of each device. -/
lemma roundTenths_clamp_max (d : Device) :
    roundTenths (DEVICE_CLAMPS d).max = (DEVICE_CLAMPS d).max := by
  cases d <;>
    [exact roundTenths_eq_self _ 80 (by norm_num [DEVICE_CLAMPS]);
     exact roundTenths_eq_self _ 60 (by norm_num [DEVICE_CLAMPS]);
     exact roundTenths_eq_self _ 70 (by norm_num [DEVICE_CLAMPS])]

/-- C1: For every game record (any combination of present or missing genre
tags, release year, deck status, ProtonDB tier) and each of the three
supported devices, the battery-hours value returned by
`estimateBatteryForDevice` lies within the fixed clamp range of that device,
[1.5, 8.0] for steam_deck, [1.5, 6.0] for rog_ally, [1.5, 7.0] for
legion_go — including after the final rounding to one decimal place. -/
theorem battery_hours_within_device_clamp (g : Game) (d : Device) :
    (DEVICE_CLAMPS d).min ≤ (estimateBatteryForDevice g d).hours ∧
    (estimateBatteryForDevice g d).hours ≤ (DEVICE_CLAMPS d).max := by
  rw [estimate_hours_def]
  set x := DEVICE_BASE_HOURS d + (genreStep g).1 + (deviceStep g d).1 +
    (yearStep g).1 + (optStep g d).1 with hx
  constructor
  · calc (DEVICE_CLAMPS d).min
        = roundTenths (DEVICE_CLAMPS d).min := (roundTenths_clamp_min d).symm
      _ ≤ roundTenths (clampTo (DEVICE_CLAMPS d) x) :=
        roundTenths_mono (clampTo_ge_min _ _)
  · calc roundTenths (clampTo (DEVICE_CLAMPS d) x)
        ≤ roundTenths (DEVICE_CLAMPS d).max :=
        roundTenths_mono (clampTo_le_max _ _ (device_clamp_nonempty d))
      _ = (DEVICE_CLAMPS d).max := roundTenths_clamp_max d

/-- Clamping leaves a value inside the range unchanged. -/
lemma clampTo_id (c : ClampRange) (q : ℚ) (h1 : c.min ≤ q) (h2 : q ≤ c.max) :
    clampTo c q = q := by
  unfold clampTo
  rw [min_eq_right h2, max_eq_right h1]

/-- The end-to-end example game of the specification: tagged `["indie"]`,
released 2018, no verified flag, no community tier. -/
def gameC4 : Game :=
  { id := 1, title := "Example Indie Game", genre := some ["indie"],
    release_year := some 2018, deck_status := none, protondb_tier := none,
    device_performance := none, data_reliability := none }

/-- The genre scan on the single tag `indie` hits the first table entry. -/
lemma genreScan_indie :
    genreScan [lowerStr "indie"] GENRE_MODIFIERS = some ("indie", 2.0) := by
  have c1 : strIncludes (lowerStr "indie") "indie" = true := by decide
  simp [genreScan, GENRE_MODIFIERS, c1]

/-- C4: For the Steam Deck (the 4.0h-baseline device), a game whose genre
list is exactly `["indie"]`, with release year 2018, no verified flag and no
top community tier, is estimated at exactly 6.5 battery hours with category
"low". -/
theorem indie_2018_steam_deck_estimate :
    (estimateBatteryForDevice gameC4 Device.steam_deck).hours = 6.5 ∧
    (estimateBatteryForDevice gameC4 Device.steam_deck).category = "low" := by
  have h1 : (genreStep gameC4).1 = 2.0 := by
    simp [genreStep, gameC4, genreScan_indie]
  have h2 : (deviceStep gameC4 Device.steam_deck).1 = 0 := by
    simp [deviceStep]
  have h3 : (yearStep gameC4).1 = 0.5 := by
    norm_num [yearStep, gameC4, RELEASE_YEAR_MODIFIER_pre2020]
  have h4 : (optStep gameC4 Device.steam_deck).1 = 0 := by
    simp [optStep, gameC4]
  have hsum : DEVICE_BASE_HOURS Device.steam_deck + (genreStep gameC4).1 +
      (deviceStep gameC4 Device.steam_deck).1 + (yearStep gameC4).1 +
      (optStep gameC4 Device.steam_deck).1 = 6.5 := by
    rw [h1, h2, h3, h4]; norm_num [DEVICE_BASE_HOURS]
  have hcl : clampTo (DEVICE_CLAMPS Device.steam_deck) (6.5 : ℚ) = 6.5 := by
    apply clampTo_id <;> norm_num [DEVICE_CLAMPS]
  constructor
  · rw [estimate_hours_def, hsum, hcl]
    exact roundTenths_eq_self _ 65 (by norm_num)
  · rw [estimate_category_def, hsum, hcl]
    norm_num [categorize]

/-- C7: The output of the estimator depends only on the four static
attributes it reads (genre, release year, deck status, ProtonDB tier), so
two calls on identical inputs return identical hours, category and notes,
with no dependence on wall-clock time. -/
theorem estimator_deterministic_in_attrs (g1 g2 : Game) (d : Device)
    (hg : g1.genre = g2.genre) (hy : g1.release_year = g2.release_year)
    (hd : g1.deck_status = g2.deck_status) (hp : g1.protondb_tier = g2.protondb_tier) :
    estimateBatteryForDevice g1 d = estimateBatteryForDevice g2 d := by
  have e1 : genreStep g1 = genreStep g2 := by unfold genreStep; rw [hg]
  have e2 : deviceStep g1 d = deviceStep g2 d := by unfold deviceStep; rw [hg]
  have e3 : yearStep g1 = yearStep g2 := by unfold yearStep; rw [hy]
  have e4 : optStep g1 d = optStep g2 d := by unfold optStep; rw [hd, hp]
  unfold estimateBatteryForDevice
  rw [e1, e2, e3, e4]

/-- First of two game records that agree on every attribute the estimator
reads but differ elsewhere (identity, performance data, reliability). -/
def gameC7a : Game :=
  { id := 7, title := "Roguelike A", genre := some ["Roguelike"],
    release_year := some 2024, deck_status := some "verified",
    protondb_tier := some "platinum", device_performance := none,
    data_reliability := some "hand_tested" }

/-- Second record: same estimator-relevant attributes as `gameC7a`. -/
def gameC7b : Game :=
  { id := 8, title := "Roguelike B", genre := some ["Roguelike"],
    release_year := some 2024, deck_status := some "verified",
    protondb_tier := some "platinum",
    device_performance := some { steam_deck := none, rog_ally := none, legion_go := none },
    data_reliability := none }

/-- Witness for C7 at a concrete input pair. -/
theorem estimator_deterministic_in_attrs_witness :
    estimateBatteryForDevice gameC7a Device.rog_ally =
      estimateBatteryForDevice gameC7b Device.rog_ally :=
  estimator_deterministic_in_attrs gameC7a gameC7b Device.rog_ally rfl rfl rfl rfl

/-- C2: For every game at the hand_tested tier and every cutoff date, the
staleness classification `isDeviceDataStale` is true if and only if at least
one of the three devices has a present tested date strictly earlier than the
cutoff. -/
theorem stale_iff_some_device_before_cutoff (game : Game) (cutoff : Int)
    (h : game.data_reliability = some "hand_tested") :
    isDeviceDataStale game.device_performance cutoff = true ↔
      ∃ dp, game.device_performance = some dp ∧ ∃ d ∈ DEVICES, ∃ r,
        dp.get d = some r ∧ ∃ t, r.tested_date = some t ∧ t < cutoff := by
  clear h
  cases hdp : game.device_performance with
  | none => simp [isDeviceDataStale]
  | some dp =>
    simp only [isDeviceDataStale, Option.some.injEq]
    rw [List.any_eq_true]
    constructor
    · rintro ⟨d, hd, hp2⟩
      refine ⟨dp, rfl, d, hd, ?_⟩
      rcases hr : dp.get d with _ | r
      · rw [hr] at hp2; simp at hp2
      · rcases ht : r.tested_date with _ | t
        · rw [hr] at hp2; simp [ht] at hp2
        · refine ⟨r, rfl, t, ht, ?_⟩
          rw [hr] at hp2
          simpa [ht] using hp2
    · rintro ⟨dp2, hdp2, d, hd, r, hr, t, ht, hlt⟩
      obtain rfl : dp = dp2 := hdp2
      refine ⟨d, hd, ?_⟩
      rw [hr]
      simpa [ht] using hlt

/-- Sub-record tested 200 days before "now" (day 1000), i.e. before the
cutoff day 820 = 1000 − 180. -/
def recStale : DeviceRecord :=
  { status := "excellent", fps_avg := none, battery_hours := none,
    tested_settings := none, tested_date := some 800, notes := none,
    estimated := false }

/-- Sub-record tested 10 days before "now" (day 1000). -/
def recFresh : DeviceRecord :=
  { status := "good", fps_avg := none, battery_hours := none,
    tested_settings := none, tested_date := some 990, notes := none,
    estimated := false }

/-- One device 200 days old, two devices 10 days old. -/
def dpC2 : DevicePerformance :=
  { steam_deck := some recStale, rog_ally := some recFresh,
    legion_go := some recFresh }

/-- The literal scenario of the specification: a hand_tested game with one
device tested 200 days ago and two devices tested 10 days ago. -/
def gameC2 : Game :=
  { id := 2, title := "Literal Scenario Game", genre := none,
    release_year := none, deck_status := none, protondb_tier := none,
    device_performance := some dpC2, data_reliability := some "hand_tested" }

/-- Witness for C2: with threshold 180 and "now" at day 1000 (cutoff 820),
the literal scenario is classified stale. -/
theorem stale_iff_some_device_before_cutoff_witness :
    isDeviceDataStale gameC2.device_performance (1000 - STALE_THRESHOLD_DAYS) = true :=
  (stale_iff_some_device_before_cutoff gameC2 (1000 - STALE_THRESHOLD_DAYS) rfl).mpr
    ⟨dpC2, rfl, Device.steam_deck, by simp [DEVICES], recStale, rfl, 800, rfl,
      by norm_num [STALE_THRESHOLD_DAYS]⟩

/-- C9: The stale-data downgrade only ever writes the single field
`data_reliability`, setting it to stale_tested, and only for games currently
at hand_tested; every other field of the game record, including all
per-device performance sub-records, is left unchanged, and
hand_tested → stale_tested is the only reliability transition. -/
theorem downgrade_writes_only_reliability (g : Game) (c : Int) :
    ((downgradePass g c).1.id = g.id ∧ (downgradePass g c).1.title = g.title ∧
     (downgradePass g c).1.genre = g.genre ∧
     (downgradePass g c).1.release_year = g.release_year ∧
     (downgradePass g c).1.deck_status = g.deck_status ∧
     (downgradePass g c).1.protondb_tier = g.protondb_tier ∧
     (downgradePass g c).1.device_performance = g.device_performance) ∧
    ((downgradePass g c).1.data_reliability = g.data_reliability ∨
      (g.data_reliability = some "hand_tested" ∧
       (downgradePass g c).1.data_reliability = some "stale_tested")) := by
  unfold downgradePass
  by_cases h : g.data_reliability = some "hand_tested"
  · rw [if_pos h]
    cases hdp : g.device_performance with
    | none => simp [hdp]
    | some dp =>
      by_cases hs : isDeviceDataStale (some dp) c = true
      · simp [hs, h, hdp]
      · simp [hs, hdp]
  · rw [if_neg h]
    simp

/-- If no device sub-record carries a tested date, the game is never
classified stale. -/
lemma isDeviceDataStale_no_dates (dp : DevicePerformance) (c : Int)
    (h : ∀ d r, dp.get d = some r → r.tested_date = none) :
    isDeviceDataStale (some dp) c = false := by
  simp only [isDeviceDataStale]
  rw [List.any_eq_false]
  intro d _
  rcases hr : dp.get d with _ | r
  · simp
  · simp [h d r hr]

/-- An estimated sub-record carrying battery hours but no test date. -/
def recEstimated : DeviceRecord :=
  { status := "untested", fps_avg := none, battery_hours := some 6.5,
    tested_settings := none, tested_date := none, notes := none,
    estimated := true }

/-- Performance object with one (estimated) sub-record and no test date
anywhere. -/
def dpC5 : DevicePerformance :=
  { steam_deck := some recEstimated, rog_ally := none, legion_go := none }

/-- A hand_tested game whose performance records exist but contain no test
timestamps at all. -/
def gameC5 : Game :=
  { id := 5, title := "Untimestamped Game", genre := none,
    release_year := none, deck_status := none, protondb_tier := none,
    device_performance := some dpC5, data_reliability := some "hand_tested" }

/-- Counterexample to C5 as stated: a hand_tested game whose per-device
records contain no test timestamps at all, yet whose outcome in the
downgrade pass is the "still fresh" count, not the "no test data" count
(the script only reports "no test data" when the whole
`device_performance` field is absent). -/
theorem no_timestamps_counterexample :
    gameC5.data_reliability = some "hand_tested" ∧
    gameC5.device_performance = some dpC5 ∧
    (∀ d r, dpC5.get d = some r → r.tested_date = none) ∧
    (downgradePass gameC5 820).2 = StaleOutcome.stillFresh ∧
    (downgradePass gameC5 820).2 ≠ StaleOutcome.noTestData := by
  have hnd : ∀ d r, dpC5.get d = some r → r.tested_date = none := by
    intro d r hr
    cases d <;> simp [dpC5, DevicePerformance.get] at hr
    subst hr
    rfl
  have hstale : isDeviceDataStale (some dpC5) 820 = false :=
    isDeviceDataStale_no_dates dpC5 820 hnd
  have hpass : downgradePass gameC5 820 = (gameC5, StaleOutcome.stillFresh) := by
    unfold downgradePass
    rw [if_pos (by rfl : gameC5.data_reliability = some "hand_tested")]
    rw [show gameC5.device_performance = some dpC5 from rfl]
    simp [hstale]
  exact ⟨rfl, rfl, hnd, by rw [hpass], by rw [hpass]; simp⟩

/-- C5 (amended): in the downgrade pass a hand_tested game with no test
timestamps anywhere is never downgraded (its record is returned unchanged);
it is reported in the "no test data" count exactly when the whole
`device_performance` field is absent, and in the "still fresh" count when
performance sub-records exist but none carries a test date. -/
theorem no_timestamps_never_downgraded (g : Game) (c : Int)
    (h : g.data_reliability = some "hand_tested")
    (hnd : ∀ dp, g.device_performance = some dp →
      ∀ d r, dp.get d = some r → r.tested_date = none) :
    (downgradePass g c).1 = g ∧
    ((downgradePass g c).2 = StaleOutcome.noTestData ↔ g.device_performance = none) := by
  unfold downgradePass
  rw [if_pos h]
  cases hdp : g.device_performance with
  | none => simp [hdp]
  | some dp =>
    have hstale : isDeviceDataStale (some dp) c = false :=
      isDeviceDataStale_no_dates dp c (hnd dp hdp)
    simp [hstale, hdp]

/-- Witness for C5 (amended) at the concrete untimestamped game. -/
theorem no_timestamps_never_downgraded_witness :
    (downgradePass gameC5 820).1 = gameC5 ∧
    ((downgradePass gameC5 820).2 = StaleOutcome.noTestData ↔
      gameC5.device_performance = none) :=
  no_timestamps_never_downgraded gameC5 820 rfl
    (by
      intro dp hdp d r hr
      have hdp2 : dp = dpC5 := by
        simpa [gameC5] using hdp.symm
      subst hdp2
      cases d <;> simp [dpC5, DevicePerformance.get] at hr
      subst hr
      rfl)

/-- A game with no performance data yet, as first ingested. -/
def gameC6 : Game :=
  { id := 6, title := "Freshly Ingested Game", genre := some ["indie"],
    release_year := some 2018, deck_status := none, protondb_tier := none,
    device_performance := none, data_reliability := some "estimated_api" }

/-- The same game after one estimator run wrote its estimates. -/
def gameC6estimated : Game :=
  { gameC6 with device_performance := some (estimateAllDevices gameC6) }

/-- Counterexample to C6 as stated: after an estimator run fills all three
device records with estimator-derived values (estimated flag set, no test
date, battery hours present), a re-run does NOT select the game again —
`needsEstimation` is false, so estimated records are not overwritten by
re-runs. -/
theorem estimated_records_not_reselected :
    (∀ d r, (estimateAllDevices gameC6).get d = some r →
      r.estimated = true ∧ r.tested_date = none ∧ r.battery_hours ≠ none) ∧
    needsEstimation gameC6estimated = false := by
  constructor
  · intro d r hr
    cases d <;>
      simp [estimateAllDevices, DevicePerformance.get] at hr <;>
      subst hr <;>
      exact ⟨rfl, rfl, by simp⟩
  · rfl

/-- C6 (amended): an estimator run selects a game if and only if its
`device_performance` field is absent or some device sub-record is missing or
lacks a battery-hours value; games whose three records already hold
battery-hours values (in particular purely estimator-derived ones) are
skipped, not overwritten. -/
theorem needs_estimation_iff_missing_hours (g : Game) :
    needsEstimation g = true ↔
      g.device_performance = none ∨
      ∃ dp, g.device_performance = some dp ∧ ∃ d ∈ DEVICES,
        (dp.get d = none ∨ ∃ r, dp.get d = some r ∧ r.battery_hours = none) := by
  cases hdp : g.device_performance with
  | none => simp [needsEstimation, hdp]
  | some dp =>
    simp only [needsEstimation, hdp, Option.some.injEq, reduceCtorEq, false_or]
    rw [List.any_eq_true]
    constructor
    · rintro ⟨d, hd, hp2⟩
      refine ⟨dp, rfl, d, hd, ?_⟩
      rcases hr : dp.get d with _ | r
      · exact Or.inl rfl
      · right
        rw [hr] at hp2
        rcases hb : r.battery_hours with _ | q
        · exact ⟨r, rfl, hb⟩
        · rw [show ((match some r with
              | none => true
              | some r => r.battery_hours == none) : Bool) =
              (r.battery_hours == none) from rfl, hb] at hp2
          simp at hp2
    · rintro ⟨dp2, hdp2, d, hd, hcase⟩
      obtain rfl : dp = dp2 := hdp2
      refine ⟨d, hd, ?_⟩
      rcases hcase with hnone | ⟨r, hr, hb⟩
      · rw [hnone]
      · rw [hr]
        simp [hb]

/-- The genre loop returns the first matching table entry, no matter what
comes after it: once an entry matches, later entries (matching or not)
cannot contribute. -/
lemma genreScan_first_match (genres : List String) (pre post : List (String × ℚ))
    (k : String) (m : ℚ)
    (hpre : ∀ e ∈ pre, (genres.any fun g => strIncludes g e.1) = false)
    (hk : (genres.any fun g => strIncludes g k) = true) :
    genreScan genres (pre ++ (k, m) :: post) = some (k, m) := by
  induction pre with
  | nil => simp [genreScan, hk]
  | cons e rest ih =>
    obtain ⟨ek, em⟩ := e
    have he : (genres.any fun g => strIncludes g ek) = false :=
      hpre (ek, em) (by simp)
    simp only [List.cons_append, genreScan, he]
    simp only [Bool.false_eq_true, if_false]
    exact ih fun e2 he2 => hpre e2 (by simp [he2])

/-- C3: When the genre-tag list of a game matches more than one entry of the
genre-modifier table, only the first matching entry (in table order)
contributes to the hours: the result is fully determined by the delta of that
entry `m`, independently of every entry after it. -/
theorem genre_first_match_wins
    (pre post : List (String × ℚ)) (k : String) (m : ℚ)
    (htbl : GENRE_MODIFIERS = pre ++ (k, m) :: post)
    (gs : List String)
    (hpre : ∀ e ∈ pre, ((gs.map lowerStr).any fun g => strIncludes g e.1) = false)
    (hk : ((gs.map lowerStr).any fun g => strIncludes g k) = true)
    (game : Game) (hg : game.genre = some gs) (device : Device) :
    (estimateBatteryForDevice game device).hours =
      roundTenths (clampTo (DEVICE_CLAMPS device)
        (DEVICE_BASE_HOURS device + m + (deviceStep game device).1 +
          (yearStep game).1 + (optStep game device).1)) := by
  have hlen : 0 < gs.length := by
    cases gs with
    | nil => simp at hk
    | cons a as => simp
  have hscan : genreScan (gs.map lowerStr) GENRE_MODIFIERS = some (k, m) := by
    rw [htbl]
    exact genreScan_first_match _ pre post k m hpre hk
  have hstep : (genreStep game).1 = m := by
    simp [genreStep, hg, hlen, hscan]
  rw [estimate_hours_def, hstep]

/-- A game carrying two genre tags that both match table entries: `aaa`
(first match, −1.5) and `action` (a later matching entry, −1.0). -/
def gameC3 : Game :=
  { id := 3, title := "Double Match Game", genre := some ["aaa", "action"],
    release_year := none, deck_status := none, protondb_tier := none,
    device_performance := none, data_reliability := none }

/-- Witness for C3: with tags `["aaa", "action"]`, only the `aaa` entry
(−1.5) determines the genre contribution; the matching `action` entry later
in the table adds nothing. -/
theorem genre_first_match_wins_witness :
    (estimateBatteryForDevice gameC3 Device.steam_deck).hours =
      roundTenths (clampTo (DEVICE_CLAMPS Device.steam_deck)
        (DEVICE_BASE_HOURS Device.steam_deck + (-1.5) +
          (deviceStep gameC3 Device.steam_deck).1 +
          (yearStep gameC3).1 + (optStep gameC3 Device.steam_deck).1)) :=
  genre_first_match_wins
    [("indie", 2.0), ("2d", 2.0), ("puzzle", 1.5), ("turn-based", 1.0),
     ("roguelike", 1.0), ("strategy", 0.8)]
    [("action", -1.0), ("fps", -1.0), ("racing", -0.8),
     ("rpg", -0.5), ("simulation", -0.3)]
    "aaa" (-1.5) rfl ["aaa", "action"] (by decide) (by decide)
    gameC3 rfl Device.steam_deck

/-- The genre loop only returns entries of the table it scans. -/
lemma genreScan_mem {genres : List String} {tbl : List (String × ℚ)}
    {e : String × ℚ} (h : genreScan genres tbl = some e) : e ∈ tbl := by
  induction tbl with
  | nil => simp [genreScan] at h
  | cons a rest ih =>
    obtain ⟨k, m⟩ := a
    simp only [genreScan] at h
    split at h
    · cases h
      exact List.mem_cons_self _ _
    · exact List.mem_cons_of_mem _ (ih h)

/-- Every positive entry of the genre table is at least +0.8. -/
lemma genre_pos_bound : ∀ e ∈ GENRE_MODIFIERS, 0 < e.2 → (0.8 : ℚ) ≤ e.2 := by
  intro e he
  fin_cases he <;> norm_num

/-- Every negative entry of the genre table is at most −0.3. -/
lemma genre_neg_bound : ∀ e ∈ GENRE_MODIFIERS, e.2 < 0 → e.2 ≤ -(0.3 : ℚ) := by
  intro e he
  fin_cases he <;> norm_num

/-- The ROG Ally genre-penalty loop contributes between −1.0 and 0 hours. -/
lemma rogScan_bound (genres : List String) :
    -1 ≤ (rogScan genres ROG_ALLY_MODIFIERS (0, [])).1 ∧
    (rogScan genres ROG_ALLY_MODIFIERS (0, [])).1 ≤ 0 := by
  simp only [ROG_ALLY_MODIFIERS, rogScan]
  split_ifs <;> simp [rogScan] <;> norm_num

/-- The device-specific step on the ROG Ally lies between −1.0 and 0. -/
lemma deviceStep_rog_bound (g : Game) :
    -1 ≤ (deviceStep g Device.rog_ally).1 ∧ (deviceStep g Device.rog_ally).1 ≤ 0 := by
  simp only [deviceStep, if_pos, reduceIte]
  cases hg : g.genre with
  | none =>
    simp only [reduceCtorEq, reduceIte]
    norm_num
  | some gs =>
    by_cases hl : 0 < gs.length
    · simp only [if_pos hl, reduceCtorEq, reduceIte]
      exact rogScan_bound (gs.map lowerStr)
    · simp only [if_neg hl, reduceCtorEq, reduceIte]
      norm_num

/-- C8: For a fixed device and fixed other attributes, a game whose single
genre tag scans to a positive (lighter) table entry never receives a lower
battery-hours estimate than the same game with the tag replaced by one that
scans to a negative (heavier) entry. -/
theorem lighter_genre_never_lower (base : Game) (d : Device)
    (tpos tneg kp kn : String) (mp mn : ℚ)
    (hp : genreScan [lowerStr tpos] GENRE_MODIFIERS = some (kp, mp))
    (hpp : 0 < mp)
    (hn : genreScan [lowerStr tneg] GENRE_MODIFIERS = some (kn, mn))
    (hnn : mn < 0) :
    (estimateBatteryForDevice { base with genre := some [tneg] } d).hours ≤
    (estimateBatteryForDevice { base with genre := some [tpos] } d).hours := by
  have hsp : (genreStep { base with genre := some [tpos] }).1 = mp := by
    simp [genreStep, hp]
  have hsn : (genreStep { base with genre := some [tneg] }).1 = mn := by
    simp [genreStep, hn]
  rw [estimate_hours_def, estimate_hours_def, hsp, hsn]
  apply roundTenths_mono
  apply clampTo_mono
  have hyear : yearStep { base with genre := some [tneg] } =
      yearStep { base with genre := some [tpos] } := rfl
  have hopt : optStep { base with genre := some [tneg] } d =
      optStep { base with genre := some [tpos] } d := rfl
  rw [hyear, hopt]
  have hmp : (0.8 : ℚ) ≤ mp := genre_pos_bound (kp, mp) (genreScan_mem hp) hpp
  have hmn : mn ≤ -(0.3 : ℚ) := genre_neg_bound (kn, mn) (genreScan_mem hn) hnn
  cases d with
  | steam_deck =>
    have e1 : (deviceStep { base with genre := some [tneg] } Device.steam_deck).1 = 0 := rfl
    have e2 : (deviceStep { base with genre := some [tpos] } Device.steam_deck).1 = 0 := rfl
    rw [e1, e2]
    linarith
  | rog_ally =>
    have b1 := deviceStep_rog_bound { base with genre := some [tneg] }
    have b2 := deviceStep_rog_bound { base with genre := some [tpos] }
    linarith [b1.1, b1.2, b2.1, b2.2]
  | legion_go =>
    have e1 : (deviceStep { base with genre := some [tneg] } Device.legion_go).1 =
        0 + LEGION_GO_ALL := rfl
    have e2 : (deviceStep { base with genre := some [tpos] } Device.legion_go).1 =
        0 + LEGION_GO_ALL := rfl
    rw [e1, e2]
    linarith

/-- The genre scan on the single tag `aaa` hits the `aaa` entry. -/
lemma genreScan_aaa :
    genreScan [lowerStr "aaa"] GENRE_MODIFIERS = some ("aaa", -1.5) := by
  have c1 : strIncludes (lowerStr "aaa") "indie" = false := by decide
  have c2 : strIncludes (lowerStr "aaa") "2d" = false := by decide
  have c3 : strIncludes (lowerStr "aaa") "puzzle" = false := by decide
  have c4 : strIncludes (lowerStr "aaa") "turn-based" = false := by decide
  have c5 : strIncludes (lowerStr "aaa") "roguelike" = false := by decide
  have c6 : strIncludes (lowerStr "aaa") "strategy" = false := by decide
  have c7 : strIncludes (lowerStr "aaa") "aaa" = true := by decide
  simp [genreScan, GENRE_MODIFIERS, c1, c2, c3, c4, c5, c6, c7]

/-- Base game record used for the monotonicity witness. -/
def gameC8 : Game :=
  { id := 9, title := "Monotonicity Base", genre := none,
    release_year := some 2021, deck_status := none, protondb_tier := none,
    device_performance := none, data_reliability := none }

/-- Witness for C8 on the ROG Ally: the `aaa` variant of the base game never
beats the `indie` variant. -/
theorem lighter_genre_never_lower_witness :
    (estimateBatteryForDevice { gameC8 with genre := some ["aaa"] } Device.rog_ally).hours ≤
    (estimateBatteryForDevice { gameC8 with genre := some ["indie"] } Device.rog_ally).hours :=
  lighter_genre_never_lower gameC8 Device.rog_ally "indie" "aaa" "indie" "aaa"
    2.0 (-1.5) genreScan_indie (by norm_num) genreScan_aaa (by norm_num)

/-- C10: Flagging a published review whose note already contains the flag
sentinel performs no further mutation: note and confidence are unchanged
(re-flagging is idempotent, with no duplicate flag appended). -/
theorem reflag_published_review_noop (r : Review) (cutoffDate now : Int)
    (hpub : r.status = "published")
    (hflag : strIncludes r.curator_note FLAG_SENTINEL = true) :
    flagStaleReview r cutoffDate now = r := by
  unfold flagStaleReview
  rw [if_pos hpub]
  cases r.last_verified with
  | none => rfl
  | some t =>
    by_cases hc : t < cutoffDate
    · simp [hc, hflag]
    · simp [hc]

/-- A published review already carrying the sentinel in its note. -/
def reviewC10 : Review :=
  { status := "published", confidence_level := "high",
    curator_note := "Great pick. [NEEDS RE-TEST: last verified 7 months ago]",
    last_verified := some 100 }

/-- Witness for C10 at a concrete already-flagged review. -/
theorem reflag_published_review_noop_witness :
    flagStaleReview reviewC10 820 1000 = reviewC10 :=
  reflag_published_review_noop reviewC10 820 1000 rfl (by decide)
